import Mathlib

/-!
Shallow embedding of the galactic-asteroid-belt game (game.go, modes.go, main.go).

Conventions of the embedding:
* Go `float64` positions, velocities and speeds are modelled as `ℚ`.  Every
  operation the game performs on these quantities (adding 0.25, 0.5, 1, 2,
  subtracting an integer speed) is exact in binary floating point throughout
  the reachable range, so `ℚ` is a faithful model of the values the program
  computes.  `Rotation` is render-only (it involves `π` and is read by no
  game-logic branch), so it is omitted from the sprite state.
* Go `int`/`int64`/`time.Duration` values are modelled as `ℤ` (nanoseconds for
  durations, as in Go).
* The functions of the external `spriteutils` library (`Sprite.Update`,
  `IsColliding`, the sprite factories, `TransientSprite`) are not part of this
  repository's sources; they are modelled from the spec (axis-aligned
  bounding-box overlap, Euler integration `position += velocity`, random
  factory output represented as an input oracle).
* A Go runtime panic (out-of-range slice expression) is modelled by `none`:
  the per-frame update returns `Option Game`.
* The `for i, v := range s` loops in `checkCollisions` that reassign
  `s = append(s[:i], s[i+1:]...)` while iterating are modelled with explicit
  Go slice semantics: a backing array (a `List` whose length never changes
  during a loop) together with the current slice length.  The range bound is
  the length at loop entry; element reads go through the shared backing
  array; `s[i+1:]` panics when `i+1` exceeds the current length.
-/

/-- Mode represents the possible game states (modes.go). -/
inductive GMode where
  | title
  | game
  | gameOver
deriving DecidableEq, Repr, Inhabited

/-- One sprite: position, velocity and bounding-box size.
Modelled from the spec: `spriteutils.Sprite` holds position (x,y),
velocity (x,y) and an image whose size gives the bounding box. -/
structure Sprite where
  x : ℚ
  y : ℚ
  vx : ℚ
  vy : ℚ
  w : ℚ
  h : ℚ
deriving DecidableEq, Repr, Inhabited

/-- Modelled from the spec: Euler integration `position += velocity`
performed by `spriteutils.Sprite.Update`. -/
def Sprite.update (s : Sprite) : Sprite :=
  { s with x := s.x + s.vx, y := s.y + s.vy }

/-- Modelled from the spec: the axis-aligned bounding-box overlap test
performed by `spriteutils.Sprite.IsColliding`. -/
def Sprite.overlaps (a b : Sprite) : Bool :=
  decide (a.x < b.x + b.w) && decide (b.x < a.x + a.w) &&
  decide (a.y < b.y + b.h) && decide (b.y < a.y + a.h)

/-- Modelled from the spec: `spriteutils.TransientSprite`, a visual effect
with a fixed lifetime after which it is automatically removed.  Random
rotation is render-only and omitted. -/
structure Explosion where
  createdAt : ℤ
  lifetime : ℤ
  ex : ℚ
  ey : ℚ
  evx : ℚ
  expired : Bool
deriving DecidableEq, Repr, Inhabited

/-- Modelled from the spec: `TransientSprite.Update(gameTime)` advances the
effect and marks it expired once its lifetime has passed. -/
def explUpdate (t : ℤ) (e : Explosion) : Explosion :=
  { e with ex := e.ex + e.evx, expired := decide (t - e.createdAt > e.lifetime) }

/-- Image sizes loaded from asset files at startup (main.go).  The assets are
not part of the sources, so their pixel sizes are parameters. -/
structure Assets where
  shipW : ℕ
  shipH : ℕ
  floorW : ℕ
  floorH : ℕ
  shieldW : ℕ
  shieldH : ℕ
deriving DecidableEq, Repr, Inhabited

/-- Per-frame external input: polled keys/mouse and the random values drawn
this frame (`rand.Intn`, factory-generated sprites), as an oracle. -/
structure Input where
  spaceJustPressed : Bool
  thrust : Bool
  rJustPressed : Bool
  spawnTop : Bool
  spawnedTopSpire : Sprite
  spawnedBottomSpire : Sprite
  spawnedAsteroid : Sprite
  impulseX : ℚ
  impulseY : ℚ
  spawnedStar : Sprite
deriving DecidableEq, Repr, Inhabited

/-- Game represents the game state (game.go).  The sprite factories are not
stored: their random output is supplied by the `Input` oracle. -/
structure Game where
  mode : GMode
  ship : Sprite
  shield : Option Sprite
  topGroundTiles : List Sprite
  bottomGroundTiles : List Sprite
  spires : List Sprite
  asteroids : List Sprite
  asteroidExplosions : List Explosion
  stars : List Sprite
  distanceTravelled : ℤ
  speed : ℚ
  speedIncreaseThreshold : ℤ
  boostFactor : ℚ
  isBoosting : Bool
  lastBoostTime : ℤ
  spireSpawnThreshold : ℤ
  asteroidSpawnThreshold : ℤ
  starSpawnThreshold : ℤ
  frameCount : ℤ
deriving DecidableEq, Repr, Inhabited

/-- outOfBoundsX: x location at which sprites are destroyed (game.go). -/
def outOfBoundsX : ℚ := -200

/-- Go `int(f)` conversion from float64: truncation toward zero.  On a
rational num/den this is the T-division of numerator by denominator. -/
def goInt (q : ℚ) : ℤ := Int.tdiv q.num (q.den : ℤ)

/-- The game time `time.Duration(frameCount) * time.Second / 60` in
nanoseconds, with Go's truncating integer division. -/
def gameTime (fc : ℤ) : ℤ := Int.tdiv (fc * 1000000000) 60

/-- Lines 124-129 of game.go: add `int(speed)` to the distance and ramp the
speed up when the distance passes the (doubling) threshold. -/
def speedRampStep (g : Game) : Game :=
  let g := { g with distanceTravelled := g.distanceTravelled + goInt g.speed }
  if g.distanceTravelled > g.speedIncreaseThreshold then
    { g with speedIncreaseThreshold := g.speedIncreaseThreshold + g.speedIncreaseThreshold,
             speed := g.speed + 1 }
  else g

/-- Lines 131-135 of game.go: when boosting and more than five seconds of
game time have passed since the last boost start, revert speed and flag. -/
def boostExpiryStep (g : Game) : Game :=
  if g.isBoosting = true ∧ gameTime g.frameCount - g.lastBoostTime > 5 * 1000000000 then
    { g with speed := g.speed - g.boostFactor, isBoosting := false }
  else g

/-- shipMovement (game.go lines 263-275): thrust impulse, gravity, Euler
step.  Rotation is render-only and omitted. -/
def shipMovement (inp : Input) (g : Game) : Game :=
  let s := g.ship
  let s := if inp.thrust then { s with vy := s.vy - 1/2 } else s
  let s := { s with vy := s.vy + 1/4 }
  { g with ship := s.update }

/-- checkShieldOn (game.go lines 278-288). -/
def checkShieldOn (A : Assets) (g : Game) : Game :=
  if g.isBoosting then
    { g with shield := some { x := g.ship.x - 17, y := g.ship.y - 15, vx := 0, vy := 0,
                              w := (A.shieldW : ℚ), h := (A.shieldH : ℚ) } }
  else
    { g with shield := none }

/-- Set the horizontal scroll velocity to `-speed` and integrate, as the
per-tile/spire/star update loops do. -/
def scrollSprite (speed : ℚ) (s : Sprite) : Sprite :=
  Sprite.update { s with vx := -speed }

/-- The fresh ground tile allocated by updateGround when the leading tile
has scrolled off screen. -/
def freshGroundTile (W newY hh speed xval : ℚ) : Sprite :=
  { x := xval, y := newY, vx := -speed, vy := 0, w := W, h := hh }

/-- The recycle step of updateGround (game.go lines 473-491) for one tile
line: drop the leading tile once `x <= -imageWidth` and append a fresh tile
one image-width after the (new) last tile.  Indexing an empty line is a
panic (`none`). -/
def recycleLine (W newY hh speed : ℚ) (l : List Sprite) : Option (List Sprite) :=
  match l with
  | [] => none
  | t0 :: rest =>
    if t0.x ≤ -W then
      match rest.getLast? with
      | none => none
      | some tl => some (rest ++ [freshGroundTile W newY hh speed (tl.x + W)])
    else some (t0 :: rest)

/-- updateGround (game.go lines 460-492). -/
def updateGround (A : Assets) (g : Game) : Option Game :=
  let W : ℚ := (A.floorW : ℚ)
  let top := g.topGroundTiles.map (scrollSprite g.speed)
  let bottom := g.bottomGroundTiles.map (scrollSprite g.speed)
  match recycleLine W 0 (A.floorH : ℚ) g.speed top with
  | none => none
  | some top2 =>
    match recycleLine W (720 - (A.floorH : ℚ)) (A.floorH : ℚ) g.speed bottom with
    | none => none
    | some bottom2 => some { g with topGroundTiles := top2, bottomGroundTiles := bottom2 }

/-- The `temp := s[:0]` in-place filter pattern used by updateSpires,
updateAsteroids and updateStars: each element is moved by `f`, then kept
when `keep` holds.  (The in-place writes never overtake the reads, so the
pattern is an ordinary filter of the mapped list.) -/
def goKeepSweep (f : Sprite → Sprite) (keep : Sprite → Bool) (l : List Sprite) : List Sprite :=
  l.foldl (fun acc v => let v2 := f v; if keep v2 then acc ++ [v2] else acc) []

/-- updateSpires (game.go lines 495-506). -/
def updateSpires (g : Game) : Game :=
  let l := goKeepSweep (scrollSprite g.speed) (fun s => decide (s.x > outOfBoundsX)) g.spires
  { g with spires := l }

/-- updateAsteroids (game.go lines 509-519): asteroids keep their own
velocity (the random impulse), no scroll velocity is set. -/
def updateAsteroids (g : Game) : Game :=
  let l := goKeepSweep Sprite.update (fun s => decide (s.x > outOfBoundsX)) g.asteroids
  { g with asteroids := l }

/-- updateStars (game.go lines 522-533). -/
def updateStars (g : Game) : Game :=
  let l := goKeepSweep (scrollSprite g.speed) (fun s => decide (s.x > outOfBoundsX)) g.stars
  { g with stars := l }

/-- createAsteroidExplosion (game.go lines 379-391). -/
def createAsteroidExplosion (g : Game) (a : Sprite) : Explosion :=
  { createdAt := gameTime g.frameCount, lifetime := 100 * 1000000,
    ex := a.x, ey := a.y, evx := -g.speed, expired := false }

/-- The assignment `g.mode = ModeGameOver`. -/
def setGameOver (g : Game) : Game := { g with mode := GMode.gameOver }

/-- The two statements run when an asteroid hits an obstacle: spawn the
explosion and (via the caller's removal) drop the asteroid. -/
def addExplosion (a : Sprite) (g : Game) : Game :=
  { g with asteroidExplosions := g.asteroidExplosions ++ [createAsteroidExplosion g a] }

/-- The effects of the ship hitting a star (game.go lines 451-454). -/
def starBoost (g : Game) : Game :=
  { g with isBoosting := true, lastBoostTime := gameTime g.frameCount,
           speed := g.speed + g.boostFactor }

/-- The in-place shift performed by `s = append(s[:i], s[i+1:]...)` on the
backing array: positions `i .. len-2` receive the old `i+1 .. len-1`,
everything else is unchanged (the old last element survives as a stale
duplicate at position `len-1`). -/
def removeShift (arr : List Sprite) (i len : Nat) : List Sprite :=
  arr.take i ++ (arr.drop (i + 1)).take (len - 1 - i) ++ arr.drop (len - 1)

/-- Go semantics of `for i, v := range s { if p v { s = append(s[:i], s[i+1:]...); onRemove }; post }`
where `s` is a slice being shortened while the loop ranges over the length
captured at entry.  `arr` is the shared backing array (constant length),
`len` the current slice length, `i` the range index, `fuel` the remaining
iterations.  `s[i+1:]` means `s[i+1:len(s)]` and panics when `i+1 > len(s)`,
which is the `none` branch. -/
def goSliceLoop (p : Sprite → Bool) (onRemove post : Sprite → Game → Game) :
    Nat → Nat → List Sprite → Nat → Game → Option (List Sprite × Nat × Game)
  | 0, _, arr, len, st => some (arr, len, st)
  | fuel + 1, i, arr, len, st =>
    let v := arr.getD i default
    if p v then
      if len < i + 1 then none
      else goSliceLoop p onRemove post fuel (i + 1)
        (removeShift arr i len) (len - 1) (post v (onRemove v st))
    else goSliceLoop p onRemove post fuel (i + 1) arr len (post v st)

/-- One obstacle group of checkCollisions (game.go lines 396-434): for each
obstacle, flag game over when the ship overlaps it, then run the
asteroid-removal range loop against that obstacle.  The inner range bound is
the asteroid slice length current at that point. -/
def obstacleSweep : List Sprite → List Sprite → Nat → Game → Option (List Sprite × Nat × Game)
  | [], arr, len, st => some (arr, len, st)
  | ob :: rest, arr, len, st =>
    let st := if st.ship.overlaps ob then setGameOver st else st
    match goSliceLoop (fun a => a.overlaps ob) addExplosion (fun _ s => s) len 0 arr len st with
    | none => none
    | some (arr2, len2, st2) => obstacleSweep rest arr2 len2 st2

/-- The per-asteroid ship test of game.go lines 443-445, run on every range
value whether or not the shield removed it. -/
def shipCheckPost (a : Sprite) (st : Game) : Game :=
  if st.ship.overlaps a then setGameOver st else st

/-- The asteroid loop of game.go lines 437-446: shield hit removes the
asteroid (with explosion), and the ship-overlap test runs on the same range
value afterwards, flagging game over. -/
def shipAsteroidSweep (arr : List Sprite) (len : Nat) (g : Game) :
    Option (List Sprite × Nat × Game) :=
  goSliceLoop
    (fun a => match g.shield with
      | some sh => sh.overlaps a
      | none => false)
    addExplosion
    shipCheckPost
    len 0 arr len g

/-- The star loop of game.go lines 449-456. -/
def starSweep (g : Game) : Option Game :=
  match goSliceLoop (fun s => g.ship.overlaps s) (fun _ st => starBoost st) (fun _ s => s)
      g.stars.length 0 g.stars g.stars.length g with
  | none => none
  | some (arr, len, g2) => some { g2 with stars := arr.take len }

/-- checkCollisions (game.go lines 394-457). -/
def checkCollisions (g : Game) : Option Game :=
  match obstacleSweep g.topGroundTiles g.asteroids g.asteroids.length g with
  | none => none
  | some (a1, l1, g1) =>
    match obstacleSweep g1.bottomGroundTiles a1 l1 g1 with
    | none => none
    | some (a2, l2, g2) =>
      match obstacleSweep g2.spires a2 l2 g2 with
      | none => none
      | some (a3, l3, g3) =>
        match shipAsteroidSweep a3 l3 g3 with
        | none => none
        | some (a4, l4, g4) => starSweep { g4 with asteroids := a4.take l4 }

/-- Spire generation (game.go lines 148-155); the random choice and the
factory output are supplied by the input oracle. -/
def spawnSpires (inp : Input) (g : Game) : Game :=
  if g.distanceTravelled > g.spireSpawnThreshold then
    { g with spires := g.spires ++ [if inp.spawnTop then inp.spawnedTopSpire
                                    else inp.spawnedBottomSpire],
             spireSpawnThreshold := g.spireSpawnThreshold + 600 }
  else g

/-- Modelled from the spec: `ApplyImpulse` of the sprite library adds the
impulse to the sprite velocity. -/
def applyImpulse (dx dy : ℚ) (s : Sprite) : Sprite :=
  { s with vx := s.vx + dx, vy := s.vy + dy }

/-- Asteroid generation with random impulse (game.go lines 158-162). -/
def spawnAsteroids (inp : Input) (g : Game) : Game :=
  if g.distanceTravelled > g.asteroidSpawnThreshold then
    { g with asteroids := g.asteroids ++ [applyImpulse inp.impulseX inp.impulseY inp.spawnedAsteroid],
             asteroidSpawnThreshold := g.asteroidSpawnThreshold + 200 }
  else g

/-- Star generation (game.go lines 165-168). -/
def spawnStars (inp : Input) (g : Game) : Game :=
  if g.distanceTravelled > g.starSpawnThreshold then
    { g with stars := g.stars ++ [inp.spawnedStar],
             starSpawnThreshold := g.starSpawnThreshold + 2000 }
  else g

/-- Explosion lifecycle (game.go lines 170-178): keep the effects that were
not expired at entry, then advance every retained effect. -/
def explosionStep (g : Game) : Game :=
  let t := gameTime g.frameCount
  { g with asteroidExplosions :=
      (g.asteroidExplosions.filter (fun e => !e.expired)).map (explUpdate t) }

/-- The ModeGame branch of Update (game.go lines 122-181). -/
def gameFrame (A : Assets) (inp : Input) (g : Game) : Option Game :=
  let g := speedRampStep g
  let g := boostExpiryStep g
  let g := shipMovement inp g
  let g := checkShieldOn A g
  match updateGround A g with
  | none => none
  | some g =>
    let g := updateSpires g
    let g := updateAsteroids g
    let g := updateStars g
    match checkCollisions g with
    | none => none
    | some g =>
      let g := spawnSpires inp g
      let g := spawnAsteroids inp g
      let g := spawnStars inp g
      let g := explosionStep g
      some { g with frameCount := g.frameCount + 1 }

/-- Number of tiles created by initializeGround's loop
`for i := 0; i*imageWidth < screenWidth + imageWidth*2; i++`:
the least `i` with `i*W ≥ 1028 + 2W`.  (With `W = 0` the Go loop would
never terminate; the assets make `W` positive.) -/
def groundCount (W : ℕ) : ℕ :=
  if W = 0 then 0 else (1028 + 2 * W + (W - 1)) / W

/-- The tile placed at index `i` of a ground line by initializeGround. -/
def groundTileAt (W hh yval speed : ℚ) (d : ℤ) (i : ℕ) : Sprite :=
  { x := W * (i : ℚ) - (d : ℚ), y := yval, vx := -speed, vy := 0, w := W, h := hh }

/-- initializeGround (game.go lines 300-324). -/
def initializeGround (A : Assets) (g : Game) : Game :=
  { g with
    topGroundTiles := (List.range (groundCount A.floorW)).map
      (groundTileAt (A.floorW : ℚ) (A.floorH : ℚ) 0 g.speed g.distanceTravelled),
    bottomGroundTiles := (List.range (groundCount A.floorW)).map
      (groundTileAt (A.floorW : ℚ) (A.floorH : ℚ) (720 - (A.floorH : ℚ)) g.speed
        g.distanceTravelled) }

/-- resetGame (game.go lines 84-112).  The initialize*Factories calls clear
the spire/asteroid/star collections; the factories themselves live in the
input oracle. -/
def resetGame (A : Assets) (g : Game) : Game :=
  let g := { g with
    ship := { x := 1028 / 4, y := 720 / 2, vx := 0, vy := 0,
              w := (A.shipW : ℚ), h := (A.shipH : ℚ) },
    shield := none,
    distanceTravelled := 0, frameCount := 0, isBoosting := false, boostFactor := 2,
    lastBoostTime := 0, speed := 1, speedIncreaseThreshold := 500,
    spireSpawnThreshold := 600, asteroidSpawnThreshold := 200, starSpawnThreshold := 50,
    asteroidExplosions := [], spires := [], asteroids := [], stars := [] }
  initializeGround A g

/-- Update (game.go lines 115-190). -/
def update (A : Assets) (inp : Input) (g : Game) : Option Game :=
  match g.mode with
  | GMode.title =>
    some (if inp.spaceJustPressed then { g with mode := GMode.game } else g)
  | GMode.game => gameFrame A inp g
  | GMode.gameOver =>
    some (if inp.rJustPressed then { resetGame A g with mode := GMode.title } else g)

/-- The zero-value Game produced by `&Game{}` in newGame (main.go): Go zero
values, mode = ModeTitle. -/
def blankGame : Game :=
  { mode := GMode.title, ship := default, shield := none,
    topGroundTiles := [], bottomGroundTiles := [], spires := [], asteroids := [],
    asteroidExplosions := [], stars := [], distanceTravelled := 0, speed := 0,
    speedIncreaseThreshold := 0, boostFactor := 0, isBoosting := false,
    lastBoostTime := 0, spireSpawnThreshold := 0, asteroidSpawnThreshold := 0,
    starSpawnThreshold := 0, frameCount := 0 }

/-- newGame (main.go): the zero game after init/resetGame. -/
def initialGame (A : Assets) : Game := resetGame A blankGame

/-- States reachable by running the game: the initial state and anything an
update step (any input) produces from a reachable state. -/
inductive Reachable (A : Assets) : Game → Prop where
  | init : Reachable A (initialGame A)
  | step {g g' : Game} (inp : Input) :
      Reachable A g → update A inp g = some g' → Reachable A g'

/-- The effect of the post hook over a removal-free stretch of the range. -/
def postFold (post : Sprite → Game → Game) (arr : List Sprite) : Nat → Nat → Game → Game
  | 0, _, st => st
  | fuel + 1, i, st => postFold post arr fuel (i + 1) (post (arr.getD i default) st)

/-! ### State-change discipline of the collision sweeps -/

/-- The fields that the obstacle and shield sweeps never change (the threaded
asteroid slice lives outside the state; only `mode` and the explosion list
are written). -/
def coreFields (g : Game) :=
  (g.ship, g.shield, g.stars, g.spires, g.topGroundTiles, g.bottomGroundTiles,
   g.asteroids, g.distanceTravelled, g.speed, g.isBoosting, g.lastBoostTime,
   g.boostFactor, g.frameCount, g.speedIncreaseThreshold, g.spireSpawnThreshold,
   g.asteroidSpawnThreshold, g.starSpawnThreshold)

/-- Obstacle/shield sweeps keep `coreFields` and can only push `mode`
towards game over. -/
def sweepCore (st st2 : Game) : Prop :=
  coreFields st2 = coreFields st ∧ (st.mode = GMode.gameOver → st2.mode = GMode.gameOver)

/-- The fields that the star sweep never changes (it writes only the boost
state, the speed and — at the very end — the star list). -/
def starFields (g : Game) :=
  (g.mode, g.ship, g.shield, g.spires, g.topGroundTiles, g.bottomGroundTiles,
   g.asteroids, g.asteroidExplosions, g.distanceTravelled, g.speedIncreaseThreshold,
   g.spireSpawnThreshold, g.asteroidSpawnThreshold, g.starSpawnThreshold, g.frameCount)

/-! ### The speed invariant -/

/-- Invariant carried by every reachable state: the speed is at least 1,
boosting states carry the extra boost amount, and the boost amount is the
constant 2 set by resetGame. -/
def SpeedInv (g : Game) : Prop :=
  1 ≤ g.speed ∧ (g.isBoosting = true → 1 + g.boostFactor ≤ g.speed) ∧ g.boostFactor = 2

/-! ### Ground tile geometry -/

/-- Consecutive tiles of a ground line sit exactly one image-width apart. -/
def contiguousLine (W : ℚ) (l : List Sprite) : Prop :=
  ∀ k, k + 1 < l.length → (l.getD (k + 1) default).x = (l.getD k default).x + W

/-- The ground ring-buffer invariant: both lines keep the tile count fixed by
initializeGround and stay contiguous. -/
def GroundInv (A : Assets) (g : Game) : Prop :=
  g.topGroundTiles.length = groundCount A.floorW ∧
  g.bottomGroundTiles.length = groundCount A.floorW ∧
  contiguousLine (A.floorW : ℚ) g.topGroundTiles ∧
  contiguousLine (A.floorW : ℚ) g.bottomGroundTiles

/-! ### Concrete states for counterexamples and witnesses -/

def A0 : Assets :=
  { shipW := 10, shipH := 10, floorW := 10, floorH := 10, shieldW := 1, shieldH := 1 }

def inp0 : Input :=
  { spaceJustPressed := false, thrust := false, rJustPressed := false, spawnTop := false,
    spawnedTopSpire := default, spawnedBottomSpire := default, spawnedAsteroid := default,
    impulseX := 0, impulseY := 0, spawnedStar := default }

def inpSpace : Input := { inp0 with spaceJustPressed := true }

def inpR : Input := { inp0 with rJustPressed := true }

def mkBox (x y w h : ℚ) : Sprite := { x := x, y := y, vx := 0, vy := 0, w := w, h := h }

def shipC : Sprite := { x := 100, y := 100, vx := 0, vy := -1/4, w := 10, h := 10 }

/-- A Game-mode frame in which the ship overlaps two stars at once. -/
def gTwoStars : Game :=
  { blankGame with
    mode := GMode.game, ship := shipC,
    topGroundTiles := [mkBox 0 0 10 10], bottomGroundTiles := [mkBox 0 710 10 10],
    speed := 1, boostFactor := 2, speedIncreaseThreshold := 500,
    spireSpawnThreshold := 600, asteroidSpawnThreshold := 200, starSpawnThreshold := 50,
    stars := [mkBox 100 100 10 10, mkBox 101 101 10 10] }

/-- A state in which the ship overlaps exactly one of two stars. -/
def gOneStar : Game :=
  { blankGame with
    mode := GMode.game, ship := mkBox 100 100 10 10,
    speed := 3, boostFactor := 2, frameCount := 120,
    stars := [mkBox 100 100 10 10, mkBox 500 100 10 10] }

def gOneStarPost : Game := (checkCollisions gOneStar).getD default

def aster0 : Sprite := mkBox 83 85 1 1

def aster1 : Sprite := mkBox 100 100 10 10

def aster2 : Sprite := mkBox 300 300 1 1

/-- A boosting frame at collision-resolution time: the shield sprite is the
one checkShieldOn builds for this ship with the A0 shield image, and the
shield destroys asteroid 0, shifting the slice so the ship-overlap test for
asteroid 1 never runs. -/
def gShieldSkip : Game :=
  { blankGame with
    mode := GMode.game, ship := mkBox 100 100 10 10,
    shield := some (mkBox 83 85 1 1),
    speed := 3, boostFactor := 2, isBoosting := true,
    asteroids := [aster0, aster1, aster2] }

def gShieldSkipPost : Game := (checkCollisions gShieldSkip).getD default

/-- A frame in which the ship overlaps the first ground tile. -/
def gTileHit : Game :=
  { blankGame with
    mode := GMode.game, ship := mkBox 5 5 10 10,
    topGroundTiles := [mkBox 0 0 100 100] }

def gTileHitPost : Game := (checkCollisions gTileHit).getD default

/-- A frame in which two asteroids overlap the same ground tile. -/
def gAstPanic : Game :=
  { blankGame with
    mode := GMode.game, ship := mkBox 500 500 10 10,
    topGroundTiles := [mkBox 0 0 100 100],
    asteroids := [mkBox 0 0 10 10, mkBox 50 50 10 10] }

def gShieldOne : Game := { blankGame with shield := some (mkBox 0 0 1 1) }

def gGroundPost : Game := (updateGround A0 (initialGame A0)).getD default

/-- Assets with one screen-wide floor tile: the ground ring has 3 tiles,
keeping the concrete frame computation small. -/
def A1 : Assets :=
  { shipW := 10, shipH := 10, floorW := 1028, floorH := 10, shieldW := 1, shieldH := 1 }

def gPlay : Game := { initialGame A1 with mode := GMode.game }

def gPlayPost : Game := (update A1 inp0 gPlay).getD default

def gOverR : Game := { blankGame with mode := GMode.gameOver }

set_option maxRecDepth 20000 in

set_option maxRecDepth 20000 in

set_option maxRecDepth 20000 in

/-! ### Helper lemmas: the in-place filter pattern -/

lemma goKeepSweep_acc (f : Sprite → Sprite) (keep : Sprite → Bool) :
    ∀ (l acc : List Sprite),
      l.foldl (fun acc v => let v2 := f v; if keep v2 then acc ++ [v2] else acc) acc
        = acc ++ (l.map f).filter keep := by
  intro l
  induction l with
  | nil => intro acc; simp
  | cons a l ih =>
    intro acc
    by_cases h : keep (f a) <;> simp [h, ih]

lemma goKeepSweep_eq (f : Sprite → Sprite) (keep : Sprite → Bool) (l : List Sprite) :
    goKeepSweep f keep l = (l.map f).filter keep := by
  unfold goKeepSweep
  simpa using goKeepSweep_acc f keep l []

/-! ### Helper lemmas: Go slice semantics of the removal loops -/

/-- The backing array keeps its length under the in-place shift. -/
lemma removeShift_length {arr : List Sprite} {i len : Nat}
    (hi : i < len) (hlen : len ≤ arr.length) :
    (removeShift arr i len).length = arr.length := by
  unfold removeShift
  simp only [List.length_append, List.length_take, List.length_drop]
  omega

lemma removeShift_getD_lt {arr : List Sprite} {i len j : Nat}
    (hi : i < len) (hlen : len ≤ arr.length) (hj : j < i) :
    (removeShift arr i len).getD j default = arr.getD j default := by
  unfold removeShift
  rw [List.getD_eq_getElem?_getD, List.getD_eq_getElem?_getD, List.append_assoc,
    List.getElem?_append, if_pos (by simp only [List.length_take]; omega),
    List.getElem?_take, if_pos hj]

lemma removeShift_getD_mid {arr : List Sprite} {i len j : Nat}
    (hi : i < len) (hlen : len ≤ arr.length) (hij : i ≤ j) (hj : j < len - 1) :
    (removeShift arr i len).getD j default = arr.getD (j + 1) default := by
  unfold removeShift
  rw [List.getD_eq_getElem?_getD, List.getD_eq_getElem?_getD, List.append_assoc,
    List.getElem?_append, if_neg (by simp only [List.length_take]; omega),
    List.getElem?_append, if_pos (by simp only [List.length_take, List.length_drop]; omega),
    List.getElem?_take, if_pos (by simp only [List.length_take]; omega),
    List.getElem?_drop]
  simp only [List.length_take]
  congr 2
  omega

lemma removeShift_getD_high {arr : List Sprite} {i len j : Nat}
    (hi : i < len) (hlen : len ≤ arr.length) (hj : len - 1 ≤ j) :
    (removeShift arr i len).getD j default = arr.getD j default := by
  unfold removeShift
  rw [List.getD_eq_getElem?_getD, List.getD_eq_getElem?_getD, List.append_assoc,
    List.getElem?_append, if_neg (by simp only [List.length_take]; omega),
    List.getElem?_append, if_neg (by simp only [List.length_take, List.length_drop]; omega),
    List.getElem?_drop]
  simp only [List.length_take, List.length_drop]
  congr 2
  omega

/-- Dropping the stale tail after a single removal erases exactly the removed
index. -/
lemma removeShift_take {arr : List Sprite} {i : Nat} (hi : i < arr.length) :
    (removeShift arr i arr.length).take (arr.length - 1) = arr.eraseIdx i := by
  unfold removeShift
  rw [List.eraseIdx_eq_take_drop_succ]
  have h1 : (arr.drop (i + 1)).take (arr.length - 1 - i) = arr.drop (i + 1) :=
    List.take_of_length_le (by simp; omega)
  rw [h1]
  have h2 : (arr.take i ++ arr.drop (i + 1)).length = arr.length - 1 := by
    simp; omega
  rw [← h2, List.take_left]

lemma postFold_id (arr : List Sprite) :
    ∀ fuel i st, postFold (fun _ s => s) arr fuel i st = st := by
  intro fuel
  induction fuel with
  | zero => intro i st; rfl
  | succ n ih => intro i st; simpa [postFold] using ih (i + 1) st

lemma goSliceLoop_noHit (p : Sprite → Bool) (onR post : Sprite → Game → Game) :
    ∀ fuel i (arr : List Sprite) len st,
      (∀ j, i ≤ j → j < i + fuel → p (arr.getD j default) = false) →
      goSliceLoop p onR post fuel i arr len st = some (arr, len, postFold post arr fuel i st) := by
  intro fuel
  induction fuel with
  | zero => intro i arr len st _; rfl
  | succ n ih =>
    intro i arr len st h
    have hfi : p (arr.getD i default) = false := h i (le_refl i) (by omega)
    simp only [goSliceLoop, postFold, hfi, Bool.false_eq_true, if_false]
    exact ih (i + 1) arr len (post (arr.getD i default) st)
      (fun j h1 h2 => h j (by omega) (by omega))

lemma goSliceLoop_skip (p : Sprite → Bool) (onR post : Sprite → Game → Game) :
    ∀ d rest i (arr : List Sprite) len st,
      (∀ j, i ≤ j → j < i + d → p (arr.getD j default) = false) →
      goSliceLoop p onR post (d + rest) i arr len st =
        goSliceLoop p onR post rest (i + d) arr len (postFold post arr d i st) := by
  intro d
  induction d with
  | zero => intro rest i arr len st _; simp [postFold]
  | succ n ih =>
    intro rest i arr len st h
    have hfi : p (arr.getD i default) = false := h i (le_refl i) (by omega)
    rw [Nat.succ_add]
    simp only [goSliceLoop, postFold, hfi, Bool.false_eq_true, if_false]
    rw [ih rest (i + 1) arr len (post (arr.getD i default) st)
      (fun j h1 h2 => h j (by omega) (by omega))]
    congr 1
    omega

lemma goSliceLoop_singleHit (p : Sprite → Bool) (onR post : Sprite → Game → Game)
    {arr : List Sprite} {len i0 : Nat} (st : Game)
    (hlen : len ≤ arr.length) (hi0 : i0 < len)
    (hp : p (arr.getD i0 default) = true)
    (huniq : ∀ j, j < len → j ≠ i0 → p (arr.getD j default) = false) :
    goSliceLoop p onR post len 0 arr len st =
      some (removeShift arr i0 len, len - 1,
        postFold post (removeShift arr i0 len) (len - i0 - 1) (i0 + 1)
          (post (arr.getD i0 default)
            (onR (arr.getD i0 default) (postFold post arr i0 0 st)))) := by
  have h1 := goSliceLoop_skip p onR post i0 (len - i0) 0 arr len st
    (fun j hj1 hj2 => huniq j (by omega) (by omega))
  rw [show i0 + (len - i0) = len from by omega, Nat.zero_add] at h1
  rw [h1, show len - i0 = (len - i0 - 1) + 1 from by omega]
  simp only [goSliceLoop, hp, if_true, if_neg (show ¬ len < i0 + 1 from by omega)]
  have hall : ∀ j, i0 + 1 ≤ j → j < i0 + 1 + (len - i0 - 1) →
      p ((removeShift arr i0 len).getD j default) = false := by
    intro j hj1 hj2
    by_cases hcase : j < len - 1
    · rw [removeShift_getD_mid hi0 hlen (by omega) hcase]
      exact huniq (j + 1) (by omega) (by omega)
    · rw [removeShift_getD_high hi0 hlen (by omega)]
      exact huniq j (by omega) (by omega)
  rw [goSliceLoop_noHit p onR post (len - i0 - 1) (i0 + 1) (removeShift arr i0 len) (len - 1)
    (post (arr.getD i0 default) (onR (arr.getD i0 default) (postFold post arr i0 0 st))) hall]
  simp

/-- A removal pass is panic-free when at most one read satisfies the removal
predicate. -/
lemma goSliceLoop_safe (p : Sprite → Bool) (onR post : Sprite → Game → Game)
    {arr : List Sprite} {len : Nat} (st : Game) (hlen : len ≤ arr.length)
    (huniq : ∀ j k, j < len → k < len → p (arr.getD j default) = true →
      p (arr.getD k default) = true → j = k) :
    goSliceLoop p onR post len 0 arr len st ≠ none := by
  by_cases hex : ∃ i0, i0 < len ∧ p (arr.getD i0 default) = true
  · obtain ⟨i0, hi0, hp⟩ := hex
    rw [goSliceLoop_singleHit p onR post st hlen hi0 hp
      (fun j hj hne => by
        cases hcase : p (arr.getD j default) with
        | false => rfl
        | true => exact absurd (huniq j i0 hj hi0 hcase hp) hne)]
    simp
  · push_neg at hex
    have hall : ∀ j, 0 ≤ j → j < 0 + len → p (arr.getD j default) = false := by
      intro j _ hj
      cases hcase : p (arr.getD j default) with
      | false => rfl
      | true => exact absurd hcase (hex j (by omega))
    rw [goSliceLoop_noHit p onR post len 0 arr len st hall]
    simp

/-- Relation transport through a removal loop. -/
lemma goSliceLoop_rel (p : Sprite → Bool) (onR post : Sprite → Game → Game)
    (R : Game → Game → Prop)
    (hrefl : ∀ s, R s s) (htrans : ∀ a b c, R a b → R b c → R a c)
    (h1 : ∀ v s, R s (onR v s)) (h2 : ∀ v s, R s (post v s)) :
    ∀ fuel i (arr : List Sprite) len st arr2 len2 st2,
      goSliceLoop p onR post fuel i arr len st = some (arr2, len2, st2) → R st st2 := by
  intro fuel
  induction fuel with
  | zero =>
    intro i arr len st arr2 len2 st2 h
    simp only [goSliceLoop, Option.some.injEq, Prod.mk.injEq] at h
    obtain ⟨_, _, h3⟩ := h
    exact h3 ▸ hrefl st
  | succ n ih =>
    intro i arr len st arr2 len2 st2 h
    simp only [goSliceLoop] at h
    by_cases hp : p (arr.getD i default) = true
    · rw [if_pos hp] at h
      by_cases hpanic : len < i + 1
      · rw [if_pos hpanic] at h; exact absurd h (by simp)
      · rw [if_neg hpanic] at h
        exact htrans _ _ _ (htrans _ _ _ (h1 _ st) (h2 _ _)) (ih _ _ _ _ _ _ _ h)
    · rw [if_neg hp] at h
      exact htrans _ _ _ (h2 _ st) (ih _ _ _ _ _ _ _ h)

lemma sweepCore_refl (s : Game) : sweepCore s s := ⟨rfl, fun h => h⟩

lemma sweepCore_trans (a b c : Game) (h1 : sweepCore a b) (h2 : sweepCore b c) :
    sweepCore a c := ⟨h2.1.trans h1.1, fun h => h2.2 (h1.2 h)⟩

lemma sweepCore_setGameOver (s : Game) : sweepCore s (setGameOver s) := ⟨rfl, fun _ => rfl⟩

lemma sweepCore_addExplosion (v : Sprite) (s : Game) : sweepCore s (addExplosion v s) :=
  ⟨rfl, fun h => h⟩

lemma sweepCore_shipCheck (v : Sprite) (s : Game) : sweepCore s (shipCheckPost v s) := by
  unfold shipCheckPost
  split
  · exact sweepCore_setGameOver s
  · exact sweepCore_refl s

lemma obstacleSweep_core :
    ∀ (obs arr : List Sprite) len st arr2 len2 st2,
      obstacleSweep obs arr len st = some (arr2, len2, st2) → sweepCore st st2 := by
  intro obs
  induction obs with
  | nil =>
    intro arr len st arr2 len2 st2 h
    simp only [obstacleSweep, Option.some.injEq, Prod.mk.injEq] at h
    exact h.2.2 ▸ sweepCore_refl st
  | cons ob rest ih =>
    intro arr len st arr2 len2 st2 h
    simp only [obstacleSweep] at h
    rcases hloop : goSliceLoop (fun a => a.overlaps ob) addExplosion (fun _ s => s) len 0 arr
        len (if st.ship.overlaps ob then setGameOver st else st) with _ | ⟨arrM, lenM, stM⟩
    · rw [hloop] at h; exact absurd h (by simp)
    · rw [hloop] at h
      have hc1 := goSliceLoop_rel (fun a => a.overlaps ob) addExplosion (fun _ s => s)
        sweepCore sweepCore_refl sweepCore_trans sweepCore_addExplosion
        (fun v s => sweepCore_refl s) len 0 arr len _ arrM lenM stM hloop
      exact sweepCore_trans _ _ _
        (sweepCore_trans _ _ _ (sweepCore_shipCheck ob st) hc1) (ih _ _ _ _ _ _ h)

lemma shipAsteroidSweep_core {arr : List Sprite} {len : Nat} {g : Game}
    {arr2 : List Sprite} {len2 : Nat} {st2 : Game}
    (h : shipAsteroidSweep arr len g = some (arr2, len2, st2)) : sweepCore g st2 := by
  exact goSliceLoop_rel _ addExplosion _ sweepCore sweepCore_refl sweepCore_trans
    sweepCore_addExplosion sweepCore_shipCheck len 0 arr len g arr2 len2 st2 h

lemma starSweep_inv {g g' : Game} (h : starSweep g = some g') :
    ∃ arr len g2,
      goSliceLoop (fun s => g.ship.overlaps s) (fun _ st => starBoost st) (fun _ s => s)
        g.stars.length 0 g.stars g.stars.length g = some (arr, len, g2) ∧
      g' = { g2 with stars := arr.take len } := by
  unfold starSweep at h
  rcases hloop : goSliceLoop (fun s => g.ship.overlaps s) (fun _ st => starBoost st)
      (fun _ s => s) g.stars.length 0 g.stars g.stars.length g with _ | ⟨arr, len, g2⟩
  · rw [hloop] at h; exact absurd h (by simp)
  · rw [hloop] at h
    simp only [Option.some.injEq] at h
    exact ⟨arr, len, g2, rfl, h.symm⟩

lemma starSweep_fields {g g' : Game} (h : starSweep g = some g') :
    starFields g' = starFields g := by
  obtain ⟨arr, len, g2, hloop, hg⟩ := starSweep_inv h
  have h2 := goSliceLoop_rel (fun s => g.ship.overlaps s) (fun _ st => starBoost st)
    (fun _ s => s) (fun a b => starFields b = starFields a) (fun s => rfl)
    (fun a b c hab hbc => hbc.trans hab) (fun v s => rfl) (fun v s => rfl)
    g.stars.length 0 g.stars g.stars.length g arr len g2 hloop
  rw [hg]
  exact h2

lemma sweepCore_fields {a b : Game} (h : sweepCore a b) :
    b.ship = a.ship ∧ b.shield = a.shield ∧ b.stars = a.stars ∧ b.spires = a.spires ∧
    b.topGroundTiles = a.topGroundTiles ∧ b.bottomGroundTiles = a.bottomGroundTiles ∧
    b.asteroids = a.asteroids ∧ b.distanceTravelled = a.distanceTravelled ∧
    b.speed = a.speed ∧ b.isBoosting = a.isBoosting ∧ b.lastBoostTime = a.lastBoostTime ∧
    b.boostFactor = a.boostFactor ∧ b.frameCount = a.frameCount ∧
    b.speedIncreaseThreshold = a.speedIncreaseThreshold ∧
    b.spireSpawnThreshold = a.spireSpawnThreshold ∧
    b.asteroidSpawnThreshold = a.asteroidSpawnThreshold ∧
    b.starSpawnThreshold = a.starSpawnThreshold := by
  have h1 := h.1
  simp only [coreFields, Prod.mk.injEq] at h1
  exact h1

lemma starFields_fields {a b : Game} (h : starFields b = starFields a) :
    b.mode = a.mode ∧ b.ship = a.ship ∧ b.shield = a.shield ∧ b.spires = a.spires ∧
    b.topGroundTiles = a.topGroundTiles ∧ b.bottomGroundTiles = a.bottomGroundTiles ∧
    b.asteroids = a.asteroids ∧ b.asteroidExplosions = a.asteroidExplosions ∧
    b.distanceTravelled = a.distanceTravelled ∧
    b.speedIncreaseThreshold = a.speedIncreaseThreshold ∧
    b.spireSpawnThreshold = a.spireSpawnThreshold ∧
    b.asteroidSpawnThreshold = a.asteroidSpawnThreshold ∧
    b.starSpawnThreshold = a.starSpawnThreshold ∧ b.frameCount = a.frameCount := by
  simp only [starFields, Prod.mk.injEq] at h
  exact h

lemma checkCollisions_inv {g g' : Game} (h : checkCollisions g = some g') :
    ∃ a1 l1 g1 a2 l2 g2 a3 l3 g3 a4 l4 g4,
      obstacleSweep g.topGroundTiles g.asteroids g.asteroids.length g = some (a1, l1, g1) ∧
      obstacleSweep g1.bottomGroundTiles a1 l1 g1 = some (a2, l2, g2) ∧
      obstacleSweep g2.spires a2 l2 g2 = some (a3, l3, g3) ∧
      shipAsteroidSweep a3 l3 g3 = some (a4, l4, g4) ∧
      starSweep { g4 with asteroids := a4.take l4 } = some g' := by
  unfold checkCollisions at h
  split at h
  · exact absurd h (by simp)
  rename_i a1 l1 g1 h1
  split at h
  · exact absurd h (by simp)
  rename_i a2 l2 g2 h2
  split at h
  · exact absurd h (by simp)
  rename_i a3 l3 g3 h3
  split at h
  · exact absurd h (by simp)
  rename_i a4 l4 g4 h4
  exact ⟨a1, l1, g1, a2, l2, g2, a3, l3, g3, a4, l4, g4, h1, h2, h3, h4, h⟩

/-! ### Hitting an obstacle flags game over -/

lemma obstacleSweep_hit :
    ∀ (obs arr : List Sprite) len st arr2 len2 st2,
      obstacleSweep obs arr len st = some (arr2, len2, st2) →
      (∃ ob ∈ obs, st.ship.overlaps ob = true) → st2.mode = GMode.gameOver := by
  intro obs
  induction obs with
  | nil =>
    rintro arr len st arr2 len2 st2 _ ⟨ob, hmem, _⟩
    exact absurd hmem (by simp)
  | cons o rest ih =>
    intro arr len st arr2 len2 st2 h hex
    simp only [obstacleSweep] at h
    rcases hloop : goSliceLoop (fun a => a.overlaps o) addExplosion (fun _ s => s) len 0 arr
        len (if st.ship.overlaps o then setGameOver st else st) with _ | ⟨arrM, lenM, stM⟩
    · rw [hloop] at h; exact absurd h (by simp)
    rw [hloop] at h
    simp only at h
    have hc1 := goSliceLoop_rel (fun a => a.overlaps o) addExplosion (fun _ s => s)
      sweepCore sweepCore_refl sweepCore_trans sweepCore_addExplosion
      (fun v s => sweepCore_refl s) len 0 arr len _ arrM lenM stM hloop
    obtain ⟨ob, hmem, hov⟩ := hex
    rcases List.mem_cons.1 hmem with hhead | hmem2
    · have hpre : (if st.ship.overlaps o then setGameOver st else st).mode = GMode.gameOver := by
        rw [hhead] at hov
        rw [if_pos hov]
        rfl
      exact (obstacleSweep_core rest arrM lenM stM arr2 len2 st2 h).2 (hc1.2 hpre)
    · have hc0 : sweepCore st stM :=
        sweepCore_trans _ _ _
          (by
            split
            · exact sweepCore_setGameOver st
            · exact sweepCore_refl st) hc1
      have hship : stM.ship = st.ship := (sweepCore_fields hc0).1
      exact ih arrM lenM stM arr2 len2 st2 h ⟨ob, hmem2, by rw [hship]; exact hov⟩

/-! ### Pure sweeps (no asteroid is removed) -/

lemma obstacleSweep_pure :
    ∀ (obs arr : List Sprite) len st,
      (∀ j, j < len → ∀ ob ∈ obs, (arr.getD j default).overlaps ob = false) →
      ∃ st2, obstacleSweep obs arr len st = some (arr, len, st2) ∧ sweepCore st st2 := by
  intro obs
  induction obs with
  | nil => intro arr len st _; exact ⟨st, rfl, sweepCore_refl st⟩
  | cons o rest ih =>
    intro arr len st h
    simp only [obstacleSweep]
    rw [goSliceLoop_noHit (fun a => a.overlaps o) addExplosion (fun _ s => s) len 0 arr len
      (if st.ship.overlaps o then setGameOver st else st)
      (fun j hj1 hj2 => h j (by omega) o (by simp))]
    rw [postFold_id]
    obtain ⟨st2, hrest, hcore⟩ := ih arr len
      (if st.ship.overlaps o then setGameOver st else st)
      (fun j hj ob hmem => h j hj ob (by simp [hmem]))
    refine ⟨st2, hrest, sweepCore_trans _ _ _ ?_ hcore⟩
    split
    · exact sweepCore_setGameOver st
    · exact sweepCore_refl st

lemma shipAsteroidSweep_pure {arr : List Sprite} {len : Nat} {g : Game}
    (hsh : ∀ j, j < len → ∀ sh, g.shield = some sh →
      sh.overlaps (arr.getD j default) = false) :
    shipAsteroidSweep arr len g = some (arr, len, postFold shipCheckPost arr len 0 g) := by
  unfold shipAsteroidSweep
  refine goSliceLoop_noHit _ addExplosion shipCheckPost len 0 arr len g ?_
  intro j hj1 hj2
  dsimp only
  cases hgs : g.shield with
  | none => rfl
  | some sh => exact hsh j (by omega) sh hgs

lemma postFold_shipCheck_ship (arr : List Sprite) :
    ∀ fuel i st, (postFold shipCheckPost arr fuel i st).ship = st.ship := by
  intro fuel
  induction fuel with
  | zero => intro i st; rfl
  | succ n ih =>
    intro i st
    simp only [postFold]
    rw [ih]
    unfold shipCheckPost
    split <;> rfl

lemma postFold_shipCheck_sticky (arr : List Sprite) :
    ∀ fuel i st, st.mode = GMode.gameOver →
      (postFold shipCheckPost arr fuel i st).mode = GMode.gameOver := by
  intro fuel
  induction fuel with
  | zero => intro i st h; exact h
  | succ n ih =>
    intro i st h
    simp only [postFold]
    refine ih (i + 1) _ ?_
    unfold shipCheckPost
    split
    · rfl
    · exact h

lemma postFold_shipCheck_hit (arr : List Sprite) :
    ∀ fuel i st j, i ≤ j → j < i + fuel →
      st.ship.overlaps (arr.getD j default) = true →
      (postFold shipCheckPost arr fuel i st).mode = GMode.gameOver := by
  intro fuel
  induction fuel with
  | zero => intro i st j h1 h2 _; omega
  | succ n ih =>
    intro i st j h1 h2 hov
    simp only [postFold]
    by_cases hji : j = i
    · subst hji
      refine postFold_shipCheck_sticky arr n (j + 1) _ ?_
      unfold shipCheckPost
      rw [if_pos hov]
      rfl
    · refine ih (i + 1) _ j (by omega) (by omega) ?_
      have : (shipCheckPost (arr.getD i default) st).ship = st.ship := by
        unfold shipCheckPost; split <;> rfl
      rw [this]
      exact hov

/-! ### Membership and index bridging -/

lemma mem_to_getD {l : List Sprite} {a : Sprite} (h : a ∈ l) :
    ∃ j, j < l.length ∧ l.getD j default = a := by
  obtain ⟨n, hn, he⟩ := List.mem_iff_getElem.1 h
  refine ⟨n, hn, ?_⟩
  rw [List.getD_eq_getElem?_getD, List.getElem?_eq_getElem hn]
  exact he

lemma getD_to_mem {l : List Sprite} {j : Nat} (hj : j < l.length) : l.getD j default ∈ l := by
  rw [List.getD_eq_getElem?_getD, List.getElem?_eq_getElem hj]
  exact List.getElem_mem hj

lemma speedInv_speedRamp {g : Game} (h : SpeedInv g) : SpeedInv (speedRampStep g) := by
  obtain ⟨h1, h2, h3⟩ := h
  unfold speedRampStep
  dsimp only
  split
  · refine ⟨?_, fun hb => ?_, h3⟩
    · dsimp only
      linarith
    · dsimp only at hb ⊢
      have := h2 hb
      linarith
  · exact ⟨h1, h2, h3⟩

lemma speedInv_boostExpiry {g : Game} (h : SpeedInv g) : SpeedInv (boostExpiryStep g) := by
  obtain ⟨h1, h2, h3⟩ := h
  unfold boostExpiryStep
  split
  · rename_i hcond
    refine ⟨?_, fun hb => absurd hb (by simp), h3⟩
    have := h2 hcond.1
    simp only
    linarith
  · exact ⟨h1, h2, h3⟩

lemma updateGround_inv {A : Assets} {g g' : Game} (h : updateGround A g = some g') :
    ∃ top2 bottom2,
      recycleLine (A.floorW : ℚ) 0 (A.floorH : ℚ) g.speed
        (g.topGroundTiles.map (scrollSprite g.speed)) = some top2 ∧
      recycleLine (A.floorW : ℚ) (720 - (A.floorH : ℚ)) (A.floorH : ℚ) g.speed
        (g.bottomGroundTiles.map (scrollSprite g.speed)) = some bottom2 ∧
      g' = { g with topGroundTiles := top2, bottomGroundTiles := bottom2 } := by
  unfold updateGround at h
  dsimp only at h
  split at h
  · exact absurd h (by simp)
  rename_i top2 h1
  split at h
  · exact absurd h (by simp)
  rename_i bottom2 h2
  simp only [Option.some.injEq] at h
  exact ⟨top2, bottom2, h1, h2, h.symm⟩

lemma gameFrame_inv {A : Assets} {inp : Input} {g g' : Game}
    (h : gameFrame A inp g = some g') :
    ∃ gm gc,
      updateGround A (checkShieldOn A (shipMovement inp (boostExpiryStep (speedRampStep g))))
        = some gm ∧
      checkCollisions (updateStars (updateAsteroids (updateSpires gm))) = some gc ∧
      g' = (fun ge => { ge with frameCount := ge.frameCount + 1 })
        (explosionStep (spawnStars inp (spawnAsteroids inp (spawnSpires inp gc)))) := by
  unfold gameFrame at h
  dsimp only at h
  split at h
  · exact absurd h (by simp)
  rename_i gm h1
  split at h
  · exact absurd h (by simp)
  rename_i gc h2
  simp only [Option.some.injEq] at h
  exact ⟨gm, gc, h1, h2, h.symm⟩

lemma speedInv_of_sweepCore {a b : Game} (hc : sweepCore a b) (h : SpeedInv a) :
    SpeedInv b := by
  obtain ⟨-, -, -, -, -, -, -, -, hsp, hbo, -, hbf, -⟩ := sweepCore_fields hc
  obtain ⟨h1, h2, h3⟩ := h
  rw [SpeedInv, hsp, hbo, hbf]
  exact ⟨h1, h2, h3⟩

lemma speedInv_starBoost {g : Game} (h : SpeedInv g) : SpeedInv (starBoost g) := by
  obtain ⟨h1, h2, h3⟩ := h
  unfold starBoost
  refine ⟨?_, fun _ => ?_, h3⟩ <;> simp only <;> rw [h3] <;> linarith

lemma checkCollisions_speedInv {g g' : Game} (h : checkCollisions g = some g')
    (hinv : SpeedInv g) : SpeedInv g' := by
  obtain ⟨a1, l1, g1, a2, l2, g2, a3, l3, g3, a4, l4, g4, h1, h2, h3, h4, h5⟩ :=
    checkCollisions_inv h
  have hc : sweepCore g g4 :=
    sweepCore_trans _ _ _
      (sweepCore_trans _ _ _
        (sweepCore_trans _ _ _ (obstacleSweep_core _ _ _ _ _ _ _ h1)
          (obstacleSweep_core _ _ _ _ _ _ _ h2))
        (obstacleSweep_core _ _ _ _ _ _ _ h3))
      (shipAsteroidSweep_core h4)
  have h4inv : SpeedInv g4 := speedInv_of_sweepCore hc hinv
  have hmid : SpeedInv { g4 with asteroids := a4.take l4 } := h4inv
  obtain ⟨arr, len, gs, hloop, hg⟩ := starSweep_inv h5
  have hrel := goSliceLoop_rel _ (fun _ st => starBoost st) (fun _ s => s)
    (fun a b => SpeedInv a → SpeedInv b) (fun s hs => hs)
    (fun a b c hab hbc hs => hbc (hab hs)) (fun v s hs => speedInv_starBoost hs)
    (fun v s hs => hs) _ 0 _ _ _ arr len gs hloop hmid
  rw [hg]
  exact hrel

lemma speedInv_resetGame (A : Assets) (g : Game) : SpeedInv (resetGame A g) :=
  ⟨le_refl 1, fun hb => Bool.noConfusion hb, rfl⟩

lemma speedInv_checkShieldOn {A : Assets} {g : Game} (h : SpeedInv g) :
    SpeedInv (checkShieldOn A g) := by
  unfold checkShieldOn
  split <;> exact h

lemma speedInv_spawnSpires {inp : Input} {g : Game} (h : SpeedInv g) :
    SpeedInv (spawnSpires inp g) := by
  unfold spawnSpires
  split <;> exact h

lemma speedInv_spawnAsteroids {inp : Input} {g : Game} (h : SpeedInv g) :
    SpeedInv (spawnAsteroids inp g) := by
  unfold spawnAsteroids
  split <;> exact h

lemma speedInv_spawnStars {inp : Input} {g : Game} (h : SpeedInv g) :
    SpeedInv (spawnStars inp g) := by
  unfold spawnStars
  split <;> exact h

lemma gameFrame_speedInv {A : Assets} {inp : Input} {g g' : Game}
    (h : gameFrame A inp g = some g') (hinv : SpeedInv g) : SpeedInv g' := by
  obtain ⟨gm, gc, hg1, hg2, hg3⟩ := gameFrame_inv h
  have i1 : SpeedInv (checkShieldOn A (shipMovement inp (boostExpiryStep (speedRampStep g)))) :=
    speedInv_checkShieldOn (speedInv_boostExpiry (speedInv_speedRamp hinv))
  obtain ⟨top2, bottom2, -, -, hgm⟩ := updateGround_inv hg1
  have i2 : SpeedInv gm := by rw [hgm]; exact i1
  have i3 : SpeedInv (updateStars (updateAsteroids (updateSpires gm))) := i2
  have i4 : SpeedInv gc := checkCollisions_speedInv hg2 i3
  have i5 : SpeedInv (spawnStars inp (spawnAsteroids inp (spawnSpires inp gc))) :=
    speedInv_spawnStars (speedInv_spawnAsteroids (speedInv_spawnSpires i4))
  rw [hg3]
  exact i5

lemma reachable_speedInv {A : Assets} {g : Game} (h : Reachable A g) : SpeedInv g := by
  induction h with
  | init => exact speedInv_resetGame A blankGame
  | @step g1 g2 inp hr hup ih =>
    unfold update at hup
    split at hup
    · simp only [Option.some.injEq] at hup
      subst hup
      split <;> exact ih
    · exact gameFrame_speedInv hup ih
    · simp only [Option.some.injEq] at hup
      subst hup
      split
      · exact speedInv_resetGame A g1
      · exact ih

/-! ### Distance tracking through a game frame -/

lemma speedRamp_distance (g : Game) :
    (speedRampStep g).distanceTravelled = g.distanceTravelled + goInt g.speed := by
  unfold speedRampStep
  dsimp only
  split <;> rfl

lemma boostExpiry_distance (g : Game) :
    (boostExpiryStep g).distanceTravelled = g.distanceTravelled := by
  unfold boostExpiryStep
  split <;> rfl

lemma checkShieldOn_distance (A : Assets) (g : Game) :
    (checkShieldOn A g).distanceTravelled = g.distanceTravelled := by
  unfold checkShieldOn
  split <;> rfl

lemma checkCollisions_distance {g g' : Game} (h : checkCollisions g = some g') :
    g'.distanceTravelled = g.distanceTravelled := by
  obtain ⟨a1, l1, g1, a2, l2, g2, a3, l3, g3, a4, l4, g4, h1, h2, h3, h4, h5⟩ :=
    checkCollisions_inv h
  have hc : sweepCore g g4 :=
    sweepCore_trans _ _ _
      (sweepCore_trans _ _ _
        (sweepCore_trans _ _ _ (obstacleSweep_core _ _ _ _ _ _ _ h1)
          (obstacleSweep_core _ _ _ _ _ _ _ h2))
        (obstacleSweep_core _ _ _ _ _ _ _ h3))
      (shipAsteroidSweep_core h4)
  have hst := starSweep_fields h5
  have e1 : g'.distanceTravelled = g4.distanceTravelled := (starFields_fields hst).2.2.2.2.2.2.2.2.1
  rw [e1]
  exact (sweepCore_fields hc).2.2.2.2.2.2.2.1

lemma spawnSpires_distance (inp : Input) (g : Game) :
    (spawnSpires inp g).distanceTravelled = g.distanceTravelled := by
  unfold spawnSpires
  split <;> rfl

lemma spawnAsteroids_distance (inp : Input) (g : Game) :
    (spawnAsteroids inp g).distanceTravelled = g.distanceTravelled := by
  unfold spawnAsteroids
  split <;> rfl

lemma spawnStars_distance (inp : Input) (g : Game) :
    (spawnStars inp g).distanceTravelled = g.distanceTravelled := by
  unfold spawnStars
  split <;> rfl

lemma gameFrame_distance {A : Assets} {inp : Input} {g g' : Game}
    (h : gameFrame A inp g = some g') :
    g'.distanceTravelled = g.distanceTravelled + goInt g.speed := by
  obtain ⟨gm, gc, hg1, hg2, hg3⟩ := gameFrame_inv h
  obtain ⟨top2, bottom2, -, -, hgm⟩ := updateGround_inv hg1
  have hd1 : gm.distanceTravelled = g.distanceTravelled + goInt g.speed := by
    rw [hgm]
    show (checkShieldOn A (shipMovement inp (boostExpiryStep (speedRampStep g)))).distanceTravelled
      = _
    rw [checkShieldOn_distance]
    show (boostExpiryStep (speedRampStep g)).distanceTravelled = _
    rw [boostExpiry_distance, speedRamp_distance]
  have hd2 : gc.distanceTravelled = gm.distanceTravelled := by
    have := checkCollisions_distance hg2
    rw [this]
    rfl
  rw [hg3]
  show (explosionStep (spawnStars inp (spawnAsteroids inp (spawnSpires inp gc)))).distanceTravelled
    = _
  show (spawnStars inp (spawnAsteroids inp (spawnSpires inp gc))).distanceTravelled = _
  rw [spawnStars_distance, spawnAsteroids_distance, spawnSpires_distance, hd2, hd1]

lemma goInt_nonneg {q : ℚ} (h : 0 ≤ q) : 0 ≤ goInt q :=
  Int.tdiv_nonneg (Rat.num_nonneg.2 h) (Int.natCast_nonneg _)

lemma getD_append_left {l1 l2 : List Sprite} {j : Nat} (h : j < l1.length) :
    (l1 ++ l2).getD j default = l1.getD j default := by
  rw [List.getD_eq_getElem?_getD, List.getD_eq_getElem?_getD, List.getElem?_append, if_pos h]

lemma getD_append_right {l1 l2 : List Sprite} {j : Nat} (h : l1.length ≤ j) :
    (l1 ++ l2).getD j default = l2.getD (j - l1.length) default := by
  rw [List.getD_eq_getElem?_getD, List.getD_eq_getElem?_getD, List.getElem?_append,
    if_neg (by omega)]

lemma initLine_contig (W hh y speed : ℚ) (d : ℤ) (n : ℕ) :
    contiguousLine W ((List.range n).map (groundTileAt W hh y speed d)) := by
  intro k hk
  simp only [List.length_map, List.length_range] at hk
  rw [List.getD_eq_getElem?_getD, List.getD_eq_getElem?_getD, List.getElem?_map,
    List.getElem?_map, List.getElem?_range (show k + 1 < n from hk),
    List.getElem?_range (show k < n from by omega)]
  simp only [Option.map_some', Option.getD_some]
  unfold groundTileAt
  simp only
  push_cast
  ring

lemma contig_map_scroll {W : ℚ} {l : List Sprite} (s : ℚ) (h : contiguousLine W l) :
    contiguousLine W (l.map (scrollSprite s)) := by
  intro k hk
  simp only [List.length_map] at hk
  rw [List.getD_eq_getElem?_getD, List.getD_eq_getElem?_getD, List.getElem?_map,
    List.getElem?_map, List.getElem?_eq_getElem (show k + 1 < l.length from hk),
    List.getElem?_eq_getElem (show k < l.length from by omega)]
  simp only [Option.map_some', Option.getD_some]
  have hx := h k hk
  rw [List.getD_eq_getElem?_getD, List.getD_eq_getElem?_getD,
    List.getElem?_eq_getElem (show k + 1 < l.length from hk),
    List.getElem?_eq_getElem (show k < l.length from by omega)] at hx
  simp only [Option.getD_some] at hx
  unfold scrollSprite Sprite.update
  simp only
  linarith

lemma contig_recycle {W newY hh speed : ℚ} {t0 tl : Sprite} {rest : List Sprite}
    (hlast : rest.getLast? = some tl) (hc : contiguousLine W (t0 :: rest)) :
    contiguousLine W (rest ++ [freshGroundTile W newY hh speed (tl.x + W)]) := by
  intro k hk
  simp only [List.length_append, List.length_cons, List.length_nil] at hk
  by_cases hcase : k + 1 < rest.length
  · rw [getD_append_left (by omega), getD_append_left (by omega)]
    have hstep := hc (k + 1) (by simp; omega)
    rw [List.getD_cons_succ, List.getD_cons_succ] at hstep
    exact hstep
  · have hkeq : k + 1 = rest.length := by omega
    rw [getD_append_right (by omega), getD_append_left (by omega)]
    have h0 : k + 1 - rest.length = 0 := by omega
    rw [h0, List.getD_cons_zero]
    have hrk : rest.getD k default = tl := by
      rw [List.getLast?_eq_getElem?] at hlast
      rw [List.getD_eq_getElem?_getD, show k = rest.length - 1 from by omega, hlast]
      rfl
    rw [hrk]
    rfl

lemma recycleLine_inv {W newY hh speed : ℚ} {l l2 : List Sprite}
    (h : recycleLine W newY hh speed l = some l2) :
    (l2 = l ∧ l ≠ []) ∨
    (∃ t0 rest tl, l = t0 :: rest ∧ t0.x ≤ -W ∧ rest.getLast? = some tl ∧
      l2 = rest ++ [freshGroundTile W newY hh speed (tl.x + W)]) := by
  unfold recycleLine at h
  split at h
  · exact absurd h (by simp)
  rename_i t0 rest
  split at h
  · rename_i hx
    split at h
    · exact absurd h (by simp)
    rename_i tl hlast
    simp only [Option.some.injEq] at h
    exact Or.inr ⟨t0, rest, tl, rfl, hx, hlast, h.symm⟩
  · simp only [Option.some.injEq] at h
    exact Or.inl ⟨h.symm, by simp⟩

lemma recycleLine_length {W newY hh speed : ℚ} {l l2 : List Sprite}
    (h : recycleLine W newY hh speed l = some l2) : l2.length = l.length := by
  rcases recycleLine_inv h with ⟨rfl, -⟩ | ⟨t0, rest, tl, rfl, -, -, rfl⟩
  · rfl
  · simp

lemma groundInv_reset (A : Assets) (g : Game) : GroundInv A (resetGame A g) := by
  refine ⟨by simp [resetGame, initializeGround], by simp [resetGame, initializeGround], ?_, ?_⟩
  · exact initLine_contig (A.floorW : ℚ) (A.floorH : ℚ) 0 1 0 (groundCount A.floorW)
  · exact initLine_contig (A.floorW : ℚ) (A.floorH : ℚ) (720 - (A.floorH : ℚ)) 1 0
      (groundCount A.floorW)

lemma contig_line_of_recycle {A : Assets} {g : Game} {newY : ℚ} {l l2 : List Sprite}
    (h : recycleLine (A.floorW : ℚ) newY (A.floorH : ℚ) g.speed (l.map (scrollSprite g.speed))
      = some l2)
    (hc : contiguousLine (A.floorW : ℚ) l) :
    l2.length = l.length ∧ contiguousLine (A.floorW : ℚ) l2 := by
  have hcm := contig_map_scroll g.speed hc
  constructor
  · rw [recycleLine_length h]
    exact List.length_map l _
  · rcases recycleLine_inv h with ⟨rfl, -⟩ | ⟨t0, rest, tl, heq, -, hlast, rfl⟩
    · exact hcm
    · rw [heq] at hcm
      exact contig_recycle hlast hcm

lemma updateGround_ground {A : Assets} {g g' : Game} (h : updateGround A g = some g')
    (hinv : GroundInv A g) : GroundInv A g' := by
  obtain ⟨h1, h2, h3, h4⟩ := hinv
  obtain ⟨top2, bottom2, ht, hb, hg⟩ := updateGround_inv h
  obtain ⟨hlt, hct⟩ := contig_line_of_recycle ht h3
  obtain ⟨hlb, hcb⟩ := contig_line_of_recycle hb h4
  rw [hg]
  exact ⟨by rw [show ({ g with topGroundTiles := top2, bottomGroundTiles := bottom2 } :
      Game).topGroundTiles = top2 from rfl, hlt, h1],
    by rw [show ({ g with topGroundTiles := top2, bottomGroundTiles := bottom2 } :
      Game).bottomGroundTiles = bottom2 from rfl, hlb, h2], hct, hcb⟩

lemma checkCollisions_ground {A : Assets} {g g' : Game} (h : checkCollisions g = some g')
    (hinv : GroundInv A g) : GroundInv A g' := by
  obtain ⟨a1, l1, g1, a2, l2, g2, a3, l3, g3, a4, l4, g4, h1, h2, h3, h4, h5⟩ :=
    checkCollisions_inv h
  have hc : sweepCore g g4 :=
    sweepCore_trans _ _ _
      (sweepCore_trans _ _ _
        (sweepCore_trans _ _ _ (obstacleSweep_core _ _ _ _ _ _ _ h1)
          (obstacleSweep_core _ _ _ _ _ _ _ h2))
        (obstacleSweep_core _ _ _ _ _ _ _ h3))
      (shipAsteroidSweep_core h4)
  obtain ⟨-, -, -, -, htop4, hbot4, -⟩ := sweepCore_fields hc
  have hst := starFields_fields (starSweep_fields h5)
  obtain ⟨-, -, -, -, htop', hbot', -⟩ := hst
  obtain ⟨hi1, hi2, hi3, hi4⟩ := hinv
  refine ⟨?_, ?_, ?_, ?_⟩
  · rw [htop']
    show g4.topGroundTiles.length = _
    rw [htop4]
    exact hi1
  · rw [hbot']
    show g4.bottomGroundTiles.length = _
    rw [hbot4]
    exact hi2
  · rw [htop']
    show contiguousLine _ g4.topGroundTiles
    rw [htop4]
    exact hi3
  · rw [hbot']
    show contiguousLine _ g4.bottomGroundTiles
    rw [hbot4]
    exact hi4

lemma groundInv_speedRamp {A : Assets} {g : Game} (h : GroundInv A g) :
    GroundInv A (speedRampStep g) := by
  unfold speedRampStep
  dsimp only
  split <;> exact h

lemma groundInv_boostExpiry {A : Assets} {g : Game} (h : GroundInv A g) :
    GroundInv A (boostExpiryStep g) := by
  unfold boostExpiryStep
  split <;> exact h

lemma groundInv_checkShieldOn {A : Assets} {g : Game} (h : GroundInv A g) :
    GroundInv A (checkShieldOn A g) := by
  unfold checkShieldOn
  split <;> exact h

lemma groundInv_spawnSpires {A : Assets} {inp : Input} {g : Game} (h : GroundInv A g) :
    GroundInv A (spawnSpires inp g) := by
  unfold spawnSpires
  split <;> exact h

lemma groundInv_spawnAsteroids {A : Assets} {inp : Input} {g : Game} (h : GroundInv A g) :
    GroundInv A (spawnAsteroids inp g) := by
  unfold spawnAsteroids
  split <;> exact h

lemma groundInv_spawnStars {A : Assets} {inp : Input} {g : Game} (h : GroundInv A g) :
    GroundInv A (spawnStars inp g) := by
  unfold spawnStars
  split <;> exact h

lemma groundInv_spawns {A : Assets} {inp : Input} {g : Game} (h : GroundInv A g) :
    GroundInv A (spawnStars inp (spawnAsteroids inp (spawnSpires inp g))) :=
  groundInv_spawnStars (groundInv_spawnAsteroids (groundInv_spawnSpires h))

lemma gameFrame_ground {A : Assets} {inp : Input} {g g' : Game}
    (h : gameFrame A inp g = some g') (hinv : GroundInv A g) : GroundInv A g' := by
  obtain ⟨gm, gc, hg1, hg2, hg3⟩ := gameFrame_inv h
  have i1 : GroundInv A (checkShieldOn A (shipMovement inp (boostExpiryStep (speedRampStep g)))) :=
    groundInv_checkShieldOn (groundInv_boostExpiry (groundInv_speedRamp hinv))
  have i2 : GroundInv A gm := updateGround_ground hg1 i1
  have i3 : GroundInv A (updateStars (updateAsteroids (updateSpires gm))) := i2
  have i4 : GroundInv A gc := checkCollisions_ground hg2 i3
  have i5 := @groundInv_spawns A inp _ i4
  rw [hg3]
  exact i5

lemma reachable_ground {A : Assets} {g : Game} (h : Reachable A g) : GroundInv A g := by
  induction h with
  | init => exact groundInv_reset A blankGame
  | @step g1 g2 inp hr hup ih =>
    unfold update at hup
    split at hup
    · simp only [Option.some.injEq] at hup
      subst hup
      split <;> exact ih
    · exact gameFrame_ground hup ih
    · simp only [Option.some.injEq] at hup
      subst hup
      split
      · exact groundInv_reset A g1
      · exact ih

/-! ### Claim theorems -/

/-- C6: in every frame, the ship's vertical velocity after shipMovement is
its previous vertical velocity plus the gravity constant 0.25, minus the
thrust constant 0.5 exactly when the thrust input (space key or left mouse
button) is active that frame. -/
theorem shipMovement_velocity_law (inp : Input) (g : Game) :
    (shipMovement inp g).ship.vy =
      g.ship.vy + 1/4 - (if inp.thrust then 1/2 else 0) := by
  unfold shipMovement Sprite.update
  by_cases ht : inp.thrust
  · simp only [ht, if_true, if_pos]
    ring
  · simp only [ht, if_false, Bool.false_eq_true]
    ring

/-- C5: the updateSpires/updateAsteroids/updateStars sweeps keep exactly the
moved entities whose horizontal position stays strictly right of the
out-of-bounds threshold -200; entities at or below it are removed. -/
theorem out_of_bounds_removal (g : Game) (s : Sprite) :
    (s ∈ (updateSpires g).spires ↔
      (∃ t ∈ g.spires, scrollSprite g.speed t = s) ∧ outOfBoundsX < s.x) ∧
    (s ∈ (updateAsteroids g).asteroids ↔
      (∃ t ∈ g.asteroids, Sprite.update t = s) ∧ outOfBoundsX < s.x) ∧
    (s ∈ (updateStars g).stars ↔
      (∃ t ∈ g.stars, scrollSprite g.speed t = s) ∧ outOfBoundsX < s.x) := by
  refine ⟨?_, ?_, ?_⟩ <;>
    simp only [updateSpires, updateAsteroids, updateStars, goKeepSweep_eq, List.mem_filter,
      List.mem_map, decide_eq_true_eq, gt_iff_lt]

/-- C10: a Title-mode update changes nothing but the mode (set to Game
exactly when the start key is just pressed), and a GameOver-mode update
without the restart key leaves the state unchanged. -/
theorem title_gameover_frame_effect (A : Assets) (inp : Input) (g : Game) :
    (g.mode = GMode.title →
      update A inp g =
        some (if inp.spaceJustPressed then { g with mode := GMode.game } else g)) ∧
    (g.mode = GMode.gameOver → inp.rJustPressed = false → update A inp g = some g) := by
  constructor
  · intro hm
    unfold update
    rw [hm]
  · intro hm hr
    unfold update
    rw [hm]
    simp only [hr]
    rfl

/-- C7: in GameOver mode, an update with the restart key pressed returns
every counter to its initial value, clears every entity collection and sets
the mode to Title. -/
theorem restart_resets_state (A : Assets) (inp : Input) (g : Game)
    (hm : g.mode = GMode.gameOver) (hr : inp.rJustPressed = true) :
    ∃ g', update A inp g = some g' ∧
      g'.distanceTravelled = 0 ∧ g'.speed = 1 ∧ g'.speedIncreaseThreshold = 500 ∧
      g'.spireSpawnThreshold = 600 ∧ g'.asteroidSpawnThreshold = 200 ∧
      g'.starSpawnThreshold = 50 ∧ g'.frameCount = 0 ∧ g'.isBoosting = false ∧
      g'.spires = [] ∧ g'.asteroids = [] ∧ g'.stars = [] ∧
      g'.asteroidExplosions = [] ∧ g'.mode = GMode.title := by
  refine ⟨{ resetGame A g with mode := GMode.title }, ?_, rfl, rfl, rfl, rfl, rfl, rfl,
    rfl, rfl, rfl, rfl, rfl, rfl, rfl⟩
  unfold update
  rw [hm]
  simp only [hr]
  rfl

/-- C9: in every reachable state the speed is at least 1. -/
theorem reachable_speed_at_least_one (A : Assets) (g : Game) (h : Reachable A g) :
    1 ≤ g.speed :=
  (reachable_speedInv h).1

/-- C4: distanceTravelled never decreases across a Game-mode update of a
reachable state, and restarting from GameOver resets it to 0. -/
theorem distance_monotone_and_reset (A : Assets) (inp : Input) (g g' : Game)
    (h : Reachable A g) (hup : update A inp g = some g') :
    (g.mode = GMode.game → g.distanceTravelled ≤ g'.distanceTravelled) ∧
    (g.mode = GMode.gameOver → inp.rJustPressed = true → g'.distanceTravelled = 0) := by
  constructor
  · intro hm
    have hs := (reachable_speedInv h).1
    have hgf : gameFrame A inp g = some g' := by
      unfold update at hup
      rw [hm] at hup
      exact hup
    rw [gameFrame_distance hgf]
    have hnn : 0 ≤ goInt g.speed := goInt_nonneg (by linarith)
    omega
  · intro hm hr
    unfold update at hup
    rw [hm] at hup
    simp only [hr, if_pos] at hup
    simp only [Option.some.injEq] at hup
    rw [← hup]
    rfl

/-- C3: the ground tiles form a fixed-size ring: every reachable state keeps
both ground lines at the initializeGround tile count and contiguous
(consecutive tiles exactly one image-width apart); updateGround preserves
tile counts and contiguity; and the recycle step drops the off-screen
leading tile and appends a tile exactly one image-width after the last. -/
theorem ground_ring_buffer (A : Assets) :
    (∀ g : Game, Reachable A g →
      g.topGroundTiles.length = groundCount A.floorW ∧
      g.bottomGroundTiles.length = groundCount A.floorW ∧
      contiguousLine (A.floorW : ℚ) g.topGroundTiles ∧
      contiguousLine (A.floorW : ℚ) g.bottomGroundTiles) ∧
    (∀ g g' : Game, updateGround A g = some g' →
      g'.topGroundTiles.length = g.topGroundTiles.length ∧
      g'.bottomGroundTiles.length = g.bottomGroundTiles.length ∧
      (contiguousLine (A.floorW : ℚ) g.topGroundTiles →
        contiguousLine (A.floorW : ℚ) g'.topGroundTiles) ∧
      (contiguousLine (A.floorW : ℚ) g.bottomGroundTiles →
        contiguousLine (A.floorW : ℚ) g'.bottomGroundTiles)) ∧
    (∀ (W newY hh speed : ℚ) (t0 tl : Sprite) (rest : List Sprite),
      t0.x ≤ -W → rest.getLast? = some tl →
      recycleLine W newY hh speed (t0 :: rest) =
        some (rest ++ [freshGroundTile W newY hh speed (tl.x + W)])) := by
  refine ⟨fun g h => reachable_ground h, ?_, ?_⟩
  · intro g g' h
    obtain ⟨top2, bottom2, ht, hb, hg⟩ := updateGround_inv h
    subst hg
    have hlt := recycleLine_length ht
    have hlb := recycleLine_length hb
    refine ⟨?_, ?_, ?_, ?_⟩
    · show top2.length = _
      rw [hlt, List.length_map]
    · show bottom2.length = _
      rw [hlb, List.length_map]
    · intro hc
      show contiguousLine _ top2
      exact (contig_line_of_recycle ht hc).2
    · intro hc
      show contiguousLine _ bottom2
      exact (contig_line_of_recycle hb hc).2
  · intro W newY hh speed t0 tl rest hx hlast
    simp [recycleLine, hx, hlast]

lemma starSweep_singleHit {g : Game} {i0 : Nat}
    (hi : i0 < g.stars.length)
    (hov : g.ship.overlaps (g.stars.getD i0 default) = true)
    (huniq : ∀ j, j < g.stars.length → j ≠ i0 →
      g.ship.overlaps (g.stars.getD j default) = false) :
    starSweep g = some { starBoost g with stars := g.stars.eraseIdx i0 } := by
  have hloop := @goSliceLoop_singleHit (fun s => g.ship.overlaps s) (fun _ st => starBoost st)
    (fun _ s => s) g.stars g.stars.length i0 g (le_refl _) hi hov huniq
  unfold starSweep
  rw [hloop]
  dsimp only
  rw [postFold_id, postFold_id, removeShift_take hi]

/-- C1 (amended): when the ship overlaps exactly one star, a completing
checkCollisions removes exactly that star, sets isBoosting, adds the boost
amount to the speed and records the boost start time; and the boost-expiry
step reverts speed and flag exactly in the frames whose elapsed game time
since the boost start strictly exceeds five seconds, never at or below. -/
theorem star_collision_boost :
    (∀ (g g' : Game) (i0 : Nat), checkCollisions g = some g' →
      i0 < g.stars.length →
      g.ship.overlaps (g.stars.getD i0 default) = true →
      (∀ j, j < g.stars.length → j ≠ i0 →
        g.ship.overlaps (g.stars.getD j default) = false) →
      g'.stars = g.stars.eraseIdx i0 ∧ g'.isBoosting = true ∧
      g'.speed = g.speed + g.boostFactor ∧
      g'.lastBoostTime = gameTime g.frameCount) ∧
    (∀ g : Game,
      (g.isBoosting = true ∧ gameTime g.frameCount - g.lastBoostTime > 5 * 1000000000 →
        boostExpiryStep g =
          { g with speed := g.speed - g.boostFactor, isBoosting := false }) ∧
      (gameTime g.frameCount - g.lastBoostTime ≤ 5 * 1000000000 →
        boostExpiryStep g = g)) := by
  constructor
  · intro g g' i0 h hi hov huniq
    obtain ⟨a1, l1, g1, a2, l2, g2, a3, l3, g3, a4, l4, g4, h1, h2, h3, h4, h5⟩ :=
      checkCollisions_inv h
    have hc : sweepCore g g4 :=
      sweepCore_trans _ _ _
        (sweepCore_trans _ _ _
          (sweepCore_trans _ _ _ (obstacleSweep_core _ _ _ _ _ _ _ h1)
            (obstacleSweep_core _ _ _ _ _ _ _ h2))
          (obstacleSweep_core _ _ _ _ _ _ _ h3))
        (shipAsteroidSweep_core h4)
    obtain ⟨hship, hshield, hstars, hspires, htop, hbot, hast, hdist, hspeed, hboost,
      hlast, hbf, hfc, -⟩ := sweepCore_fields hc
    have hshipM : ({ g4 with asteroids := a4.take l4 } : Game).ship = g.ship := hship
    have hstarsM : ({ g4 with asteroids := a4.take l4 } : Game).stars = g.stars := hstars
    have hi' : i0 < ({ g4 with asteroids := a4.take l4 } : Game).stars.length := by
      rw [hstarsM]; exact hi
    have hov' : ({ g4 with asteroids := a4.take l4 } : Game).ship.overlaps
        (({ g4 with asteroids := a4.take l4 } : Game).stars.getD i0 default) = true := by
      rw [hstarsM, hshipM]; exact hov
    have huniq' : ∀ j, j < ({ g4 with asteroids := a4.take l4 } : Game).stars.length →
        j ≠ i0 → ({ g4 with asteroids := a4.take l4 } : Game).ship.overlaps
          (({ g4 with asteroids := a4.take l4 } : Game).stars.getD j default) = false := by
      rw [hstarsM, hshipM]; exact huniq
    have hsw := starSweep_singleHit hi' hov' huniq'
    rw [hsw] at h5
    simp only [Option.some.injEq] at h5
    subst h5
    refine ⟨?_, rfl, ?_, ?_⟩
    · show ({ g4 with asteroids := a4.take l4 } : Game).stars.eraseIdx i0 = _
      rw [hstarsM]
    · show g4.speed + g4.boostFactor = g.speed + g.boostFactor
      rw [hspeed, hbf]
    · show gameTime g4.frameCount = gameTime g.frameCount
      rw [hfc]
  · intro g
    constructor
    · intro hc
      unfold boostExpiryStep
      rw [if_pos hc]
    · intro hle
      unfold boostExpiryStep
      rw [if_neg]
      rintro ⟨-, hgt⟩
      omega

/-- C2 (amended): a completing checkCollisions ends in GameOver whenever the
ship overlaps a top tile, bottom tile or spire; and whenever the ship
overlaps an asteroid, provided the shield overlaps no asteroid and no
asteroid hits a ground tile or spire that frame (an earlier same-pass
removal can shift the survivors and skip the ship test for one of them). -/
theorem obstacle_collision_game_over (g g' : Game) (h : checkCollisions g = some g')
    (hcase :
      (∃ t ∈ g.topGroundTiles, g.ship.overlaps t = true) ∨
      (∃ t ∈ g.bottomGroundTiles, g.ship.overlaps t = true) ∨
      (∃ t ∈ g.spires, g.ship.overlaps t = true) ∨
      ((∀ a ∈ g.asteroids, ∀ sh, g.shield = some sh → sh.overlaps a = false) ∧
        (∀ a ∈ g.asteroids, ∀ ob ∈ g.topGroundTiles ++ g.bottomGroundTiles ++ g.spires,
          a.overlaps ob = false) ∧
        ∃ a ∈ g.asteroids, g.ship.overlaps a = true)) :
    g'.mode = GMode.gameOver := by
  obtain ⟨a1, l1, g1, a2, l2, g2, a3, l3, g3, a4, l4, g4, h1, h2, h3, h4, h5⟩ :=
    checkCollisions_inv h
  have hmode : g'.mode = g4.mode := (starFields_fields (starSweep_fields h5)).1
  rw [hmode]
  have hc4 := shipAsteroidSweep_core h4
  rcases hcase with hcA | hcB | hcC | ⟨hsh, hnoast, a, hamem, haov⟩
  · have hc2 := obstacleSweep_core _ _ _ _ _ _ _ h2
    have hc3 := obstacleSweep_core _ _ _ _ _ _ _ h3
    exact hc4.2 (hc3.2 (hc2.2 (obstacleSweep_hit _ _ _ _ _ _ _ h1 hcA)))
  · have hc1 := obstacleSweep_core _ _ _ _ _ _ _ h1
    have hc3 := obstacleSweep_core _ _ _ _ _ _ _ h3
    obtain ⟨t, hmem, hov⟩ := hcB
    have hf1 := sweepCore_fields hc1
    have hg2 : g2.mode = GMode.gameOver :=
      obstacleSweep_hit _ _ _ _ _ _ _ h2
        ⟨t, by rw [hf1.2.2.2.2.2.1]; exact hmem, by rw [hf1.1]; exact hov⟩
    exact hc4.2 (hc3.2 hg2)
  · have hc1 := obstacleSweep_core _ _ _ _ _ _ _ h1
    have hc2 := obstacleSweep_core _ _ _ _ _ _ _ h2
    obtain ⟨t, hmem, hov⟩ := hcC
    have hf12 := sweepCore_fields (sweepCore_trans _ _ _ hc1 hc2)
    have hg3 : g3.mode = GMode.gameOver :=
      obstacleSweep_hit _ _ _ _ _ _ _ h3
        ⟨t, by rw [hf12.2.2.2.1]; exact hmem, by rw [hf12.1]; exact hov⟩
    exact hc4.2 hg3
  · have hno : ∀ j, j < g.asteroids.length →
        ∀ ob, (ob ∈ g.topGroundTiles ∨ ob ∈ g.bottomGroundTiles ∨ ob ∈ g.spires) →
        (g.asteroids.getD j default).overlaps ob = false := by
      intro j hj ob hob
      refine hnoast _ (getD_to_mem hj) ob ?_
      simp only [List.mem_append]
      tauto
    obtain ⟨s1, hp1, hsc1⟩ := obstacleSweep_pure g.topGroundTiles g.asteroids
      g.asteroids.length g (fun j hj ob hob => hno j hj ob (Or.inl hob))
    rw [hp1] at h1
    simp only [Option.some.injEq, Prod.mk.injEq] at h1
    obtain ⟨ha1, hl1, hg1⟩ := h1
    subst ha1
    subst hl1
    rw [hg1] at hsc1
    have hbot1 : g1.bottomGroundTiles = g.bottomGroundTiles :=
      (sweepCore_fields hsc1).2.2.2.2.2.1
    obtain ⟨s2, hp2, hsc2⟩ := obstacleSweep_pure g1.bottomGroundTiles g.asteroids
      g.asteroids.length g1
      (fun j hj ob hob => hno j hj ob (Or.inr (Or.inl (hbot1 ▸ hob))))
    rw [hp2] at h2
    simp only [Option.some.injEq, Prod.mk.injEq] at h2
    obtain ⟨ha2, hl2, hg2⟩ := h2
    subst ha2
    subst hl2
    rw [hg2] at hsc2
    have hsc12 := sweepCore_trans _ _ _ hsc1 hsc2
    have hspi2 : g2.spires = g.spires := (sweepCore_fields hsc12).2.2.2.1
    obtain ⟨s3, hp3, hsc3⟩ := obstacleSweep_pure g2.spires g.asteroids
      g.asteroids.length g2
      (fun j hj ob hob => hno j hj ob (Or.inr (Or.inr (hspi2 ▸ hob))))
    rw [hp3] at h3
    simp only [Option.some.injEq, Prod.mk.injEq] at h3
    obtain ⟨ha3, hl3, hg3⟩ := h3
    subst ha3
    subst hl3
    rw [hg3] at hsc3
    have hsc13 := sweepCore_trans _ _ _ hsc12 hsc3
    have hsh3 : ∀ j, j < g.asteroids.length → ∀ sh, g3.shield = some sh →
        sh.overlaps (g.asteroids.getD j default) = false := by
      intro j hj sh hshs
      rw [(sweepCore_fields hsc13).2.1] at hshs
      exact hsh (g.asteroids.getD j default) (getD_to_mem hj) sh hshs
    have hship3 : g3.ship = g.ship := (sweepCore_fields hsc13).1
    rw [shipAsteroidSweep_pure hsh3] at h4
    simp only [Option.some.injEq, Prod.mk.injEq] at h4
    obtain ⟨-, -, hg4⟩ := h4
    obtain ⟨j, hj, hja⟩ := mem_to_getD hamem
    rw [← hg4]
    exact postFold_shipCheck_hit g.asteroids g.asteroids.length 0 g3 j (by omega)
      (by omega) (by rw [hship3, hja]; exact haov)

/-- C8 (amended): the removal passes of checkCollisions stay within slice
bounds whenever at most one element of the pass satisfies the removal
predicate: with at most one star overlapping the ship the star pass
completes, a per-obstacle asteroid pass with at most one colliding asteroid
completes, and the shield pass with at most one shield hit completes. -/
theorem single_removal_in_bounds :
    (∀ g : Game,
      (∀ j, j < g.stars.length → ∀ k, k < g.stars.length →
        g.ship.overlaps (g.stars.getD j default) = true →
        g.ship.overlaps (g.stars.getD k default) = true → j = k) →
      starSweep g ≠ none) ∧
    (∀ (ob : Sprite) (arr : List Sprite) (len : Nat) (st : Game), len ≤ arr.length →
      (∀ j, j < len → ∀ k, k < len → (arr.getD j default).overlaps ob = true →
        (arr.getD k default).overlaps ob = true → j = k) →
      goSliceLoop (fun a => a.overlaps ob) addExplosion (fun _ s => s) len 0 arr len st
        ≠ none) ∧
    (∀ (arr : List Sprite) (len : Nat) (g : Game) (sh : Sprite), len ≤ arr.length →
      g.shield = some sh →
      (∀ j, j < len → ∀ k, k < len → sh.overlaps (arr.getD j default) = true →
        sh.overlaps (arr.getD k default) = true → j = k) →
      shipAsteroidSweep arr len g ≠ none) := by
  refine ⟨?_, ?_, ?_⟩
  · intro g huniq
    unfold starSweep
    rcases hloop : goSliceLoop (fun s => g.ship.overlaps s) (fun _ st => starBoost st)
        (fun _ s => s) g.stars.length 0 g.stars g.stars.length g with _ | ⟨arr, len, g2⟩
    · exact absurd hloop (goSliceLoop_safe _ _ _ g (le_refl _)
        (fun j k hj hk => huniq j hj k hk))
    · simp
  · intro ob arr len st hlen huniq
    exact goSliceLoop_safe _ _ _ st hlen (fun j k hj hk => huniq j hj k hk)
  · intro arr len g sh hlen hsh huniq
    unfold shipAsteroidSweep
    apply goSliceLoop_safe _ _ shipCheckPost g hlen
    intro j k hj hk hpj hpk
    rw [hsh] at hpj hpk
    exact huniq j hj k hk hpj hpk

/-! ### Counterexamples -/

set_option maxRecDepth 20000

/-- C1 counterexample: in a Game-mode frame whose ship overlaps both stars
of a two-star slice, the update does not remove the stars and boost — the
second hit is read past the already-shortened slice and the update
panics. -/
theorem star_collision_counterexample :
    gTwoStars.mode = GMode.game ∧
    gTwoStars.ship.overlaps (gTwoStars.stars.getD 0 default) = true ∧
    gTwoStars.ship.overlaps (gTwoStars.stars.getD 1 default) = true ∧
    update A0 inp0 gTwoStars = none :=
  ⟨rfl, by with_unfolding_all decide, by with_unfolding_all decide,
    by with_unfolding_all decide⟩

/-- C2 counterexample: with the shield on, the in-pass removal of asteroid 0
shifts the slice, the ship-overlap test for asteroid 1 never runs, and
collision resolution completes with mode still Game although the ship
overlaps asteroid 1 (which is still in the collection). -/
theorem obstacle_skip_counterexample :
    gShieldSkip.mode = GMode.game ∧
    gShieldSkip.shield = (checkShieldOn A0 gShieldSkip).shield ∧
    gShieldSkip.ship.overlaps aster1 = true ∧
    checkCollisions gShieldSkip = some gShieldSkipPost ∧
    gShieldSkipPost.mode = GMode.game ∧
    aster1 ∈ gShieldSkipPost.asteroids ∧
    gShieldSkipPost.ship.overlaps aster1 = true :=
  ⟨rfl, by with_unfolding_all decide, by with_unfolding_all decide,
    by with_unfolding_all rfl, by with_unfolding_all decide,
    by with_unfolding_all decide, by with_unfolding_all decide⟩

/-- C8 counterexample: in this state both asteroids overlap the same ground
tile, the second hit is read past the already-shortened slice, and the
removal pass re-slices out of bounds: checkCollisions panics. -/
theorem slice_removal_counterexample :
    (gAstPanic.asteroids.getD 0 default).overlaps (mkBox 0 0 100 100) = true ∧
    (gAstPanic.asteroids.getD 1 default).overlaps (mkBox 0 0 100 100) = true ∧
    mkBox 0 0 100 100 ∈ gAstPanic.topGroundTiles ∧
    checkCollisions gAstPanic = none :=
  ⟨by with_unfolding_all decide, by with_unfolding_all decide,
    by with_unfolding_all decide, by with_unfolding_all decide⟩

/-! ### Witnesses -/

/-- C1 witness: a state with exactly one star under the ship. -/
theorem star_collision_boost_witness :
    checkCollisions gOneStar = some gOneStarPost ∧
    gOneStarPost.stars = gOneStar.stars.eraseIdx 0 ∧
    gOneStarPost.isBoosting = true ∧
    gOneStarPost.speed = gOneStar.speed + gOneStar.boostFactor ∧
    gOneStarPost.lastBoostTime = gameTime gOneStar.frameCount ∧
    boostExpiryStep gOneStar = gOneStar := by
  have h : checkCollisions gOneStar = some gOneStarPost := by with_unfolding_all rfl
  have happ := star_collision_boost.1 gOneStar gOneStarPost 0 h
    (by with_unfolding_all decide) (by with_unfolding_all decide)
    (by with_unfolding_all decide)
  exact ⟨h, happ.1, happ.2.1, happ.2.2.1, happ.2.2.2,
    (star_collision_boost.2 gOneStar).2 (by with_unfolding_all decide)⟩

/-- C2 witness: the ship overlapping a ground tile ends the frame in
GameOver. -/
theorem obstacle_game_over_witness :
    checkCollisions gTileHit = some gTileHitPost ∧
    gTileHitPost.mode = GMode.gameOver := by
  have h : checkCollisions gTileHit = some gTileHitPost := by with_unfolding_all rfl
  exact ⟨h, obstacle_collision_game_over gTileHit gTileHitPost h
    (Or.inl ⟨mkBox 0 0 100 100, by with_unfolding_all decide,
      by with_unfolding_all decide⟩)⟩

/-- C3 witness: the initial state's ground invariant, one concrete
updateGround step, and one concrete recycle step. -/
theorem ground_ring_buffer_witness :
    (initialGame A0).topGroundTiles.length = groundCount A0.floorW ∧
    contiguousLine (A0.floorW : ℚ) (initialGame A0).topGroundTiles ∧
    updateGround A0 (initialGame A0) = some gGroundPost ∧
    gGroundPost.topGroundTiles.length = (initialGame A0).topGroundTiles.length ∧
    recycleLine 10 0 10 1 [mkBox (-12) 0 10 10, mkBox (-2) 0 10 10] =
      some ([mkBox (-2) 0 10 10] ++
        [freshGroundTile 10 0 10 1 ((mkBox (-2) 0 10 10).x + 10)]) := by
  have hg := (ground_ring_buffer A0).1 (initialGame A0) Reachable.init
  have hup : updateGround A0 (initialGame A0) = some gGroundPost := by
    with_unfolding_all rfl
  exact ⟨hg.1, hg.2.2.1, hup, ((ground_ring_buffer A0).2.1 _ _ hup).1,
    (ground_ring_buffer A0).2.2 10 0 10 1 (mkBox (-12) 0 10 10) (mkBox (-2) 0 10 10)
      [mkBox (-2) 0 10 10] (by with_unfolding_all decide) (by with_unfolding_all decide)⟩

/-- C4 witness: one reachable Game-mode frame from the start of a run. -/
theorem distance_monotone_witness :
    update A1 inp0 gPlay = some gPlayPost ∧
    gPlay.distanceTravelled ≤ gPlayPost.distanceTravelled := by
  have hreach : Reachable A1 gPlay :=
    Reachable.step inpSpace Reachable.init (by with_unfolding_all rfl)
  have hup : update A1 inp0 gPlay = some gPlayPost := by with_unfolding_all rfl
  exact ⟨hup, (distance_monotone_and_reset A1 inp0 gPlay gPlayPost hreach hup).1 rfl⟩

/-- C7 witness: a concrete restart from GameOver. -/
theorem restart_resets_witness :
    ∃ g', update A0 inpR gOverR = some g' ∧
      g'.distanceTravelled = 0 ∧ g'.speed = 1 ∧ g'.speedIncreaseThreshold = 500 ∧
      g'.spireSpawnThreshold = 600 ∧ g'.asteroidSpawnThreshold = 200 ∧
      g'.starSpawnThreshold = 50 ∧ g'.frameCount = 0 ∧ g'.isBoosting = false ∧
      g'.spires = [] ∧ g'.asteroids = [] ∧ g'.stars = [] ∧
      g'.asteroidExplosions = [] ∧ g'.mode = GMode.title :=
  restart_resets_state A0 inpR gOverR rfl rfl

/-- C8 witness: single-removal passes complete on concrete inputs. -/
theorem single_removal_witness :
    starSweep gOneStar ≠ none ∧
    goSliceLoop (fun a => a.overlaps (mkBox 0 0 100 100)) addExplosion (fun _ s => s)
      1 0 [mkBox 0 0 10 10] 1 blankGame ≠ none ∧
    shipAsteroidSweep [mkBox 0 0 10 10] 1 gShieldOne ≠ none :=
  ⟨single_removal_in_bounds.1 gOneStar (by with_unfolding_all decide),
   single_removal_in_bounds.2.1 (mkBox 0 0 100 100) [mkBox 0 0 10 10] 1 blankGame
     (by with_unfolding_all decide) (by with_unfolding_all decide),
   single_removal_in_bounds.2.2 [mkBox 0 0 10 10] 1 gShieldOne (mkBox 0 0 1 1)
     (by with_unfolding_all decide) rfl (by with_unfolding_all decide)⟩

/-- C9 witness: the initial state. -/
theorem reachable_speed_witness : 1 ≤ (initialGame A0).speed :=
  reachable_speed_at_least_one A0 (initialGame A0) Reachable.init

/-- C10 witness: one Title frame and one GameOver frame without restart. -/
theorem title_gameover_witness :
    update A0 inp0 blankGame =
      some (if inp0.spaceJustPressed then { blankGame with mode := GMode.game }
        else blankGame) ∧
    update A0 inp0 gOverR = some gOverR :=
  ⟨(title_gameover_frame_effect A0 inp0 blankGame).1 rfl,
   (title_gameover_frame_effect A0 inp0 gOverR).2 rfl rfl⟩
